import Mathlib

/-!
Verification of the ALTMAN mania-rating window (`ui/main_window.py`).

The file shallowly embeds the window's state and its wiring/event methods:
widgets become record fields, Qt signal/slot connections become an explicit
connection list, and each slot runs as a pure state transformer.  External
collaborators that live outside the sources (the Qt widget classes, the
`add_altmans_data` / `delete_selected_rows` / `change_stack_page` helpers)
are modelled from the spec's description of their contracts; every method of
`MainWindow` itself is translated directly from the Python source.
-/

/-- A Qt settings value: either an integer (`lastPageIndex`) or an opaque
byte-array blob (`geometry`, `windowState`).  `QByteArray()` is `blobVal []`. -/
inductive QVariant where
  | intVal : Int → QVariant
  | blobVal : List Nat → QVariant
deriving DecidableEq

/-- Coercion used by `settings.value(..., type=int)`. -/
def QVariant.asInt : QVariant → Int
  | .intVal n => n
  | .blobVal _ => 0

/-- Coercion of a settings value to a byte-array blob. -/
def QVariant.asBlob : QVariant → List Nat
  | .intVal _ => []
  | .blobVal b => b

/-- The `QSettings` key-value store.  `writeLog` records every key for which a
`setValue` call was attempted, in order, so that theorems can count writes. -/
structure QSettings where
  entries : List (String × QVariant)
  writeLog : List String
deriving DecidableEq

/-- `settings.value(key, default)`: read with a default on a missing key. -/
def QSettings.value (s : QSettings) (key : String) (dflt : QVariant) : QVariant :=
  match s.entries.find? (fun p => decide (p.1 = key)) with
  | some p => p.2
  | none => dflt

/-- One `settings.setValue(key, v)` call.  The attempt is always logged; when
`fails` is true the underlying write raises (the caller's `except` block
swallows it) and the store is left unchanged. -/
def QSettings.attemptSetValue (s : QSettings) (key : String) (v : QVariant)
    (fails : Bool) : QSettings :=
  { entries := if fails then s.entries else (key, v) :: s.entries,
    writeLog := s.writeLog ++ [key] }

/-- A successful `settings.setValue(key, v)`. -/
def QSettings.setValue (s : QSettings) (key : String) (v : QVariant) : QSettings :=
  s.attemptSetValue key v false

/-- Modelled from the spec: a "Slider" is a "bounded integer input widget,
range [0,4] in this form"; the widget class itself is Qt code outside the
sources.  `lo`/`hi` is the current range and `val` the current value; the
widget "enforces range at the source", i.e. values are clamped into range. -/
structure Slider where
  lo : Int
  hi : Int
  val : Int
deriving DecidableEq

/-- `slider.setRange(lo, hi)`: Qt clamps the current value into the new range. -/
def Slider.setRange (s : Slider) (lo hi : Int) : Slider :=
  { lo := lo, hi := hi, val := max lo (min hi s.val) }

/-- `slider.setValue(v)`: Qt clamps the requested value into the range. -/
def Slider.setValue (s : Slider) (v : Int) : Slider :=
  { s with val := max s.lo (min s.hi v) }

/-- The record of widget values handed to the insert operation on commit. -/
structure AltmanRow where
  altman_date : Int
  altman_time : Int
  altmans_sleep : Int
  altmans_speech : Int
  altmans_activity : Int
  altmans_cheer : Int
  altmans_confidence : Int
  altmans_summary : Int
deriving DecidableEq

/-- One recorded call of the external insert operation: the field-name
mapping passed at the call site together with the widget values read there. -/
structure InsertCall where
  mapping : List (String × String)
  row : AltmanRow
deriving DecidableEq

/-- The Qt signals this window connects to slots. -/
inductive Signal where
  | sleepChanged
  | speechChanged
  | activityChanged
  | cheerChanged
  | confidenceChanged
  | commitTriggered
  | deleteTriggered
  | examTriggered
  | tableTriggered
  | currentChanged
deriving DecidableEq

/-- The slots (callbacks) this window connects to signals. -/
inductive Handler where
  | updateSummary
  | commitData
  | deleteRows
  | onPageChanged
  | switchone
  | switchtwo
  | changeStackPage : Int → Handler
deriving DecidableEq

/-- The state of the `MainWindow`: widget contents, page/navigation state,
the settings store, the signal/slot connection list, and trace lists for the
calls made to the external insert and delete collaborators. -/
structure MainWindow where
  altman_date : Int
  altman_time : Int
  altmans_sleep : Slider
  altmans_speech : Slider
  altmans_activity : Slider
  altmans_cheer : Slider
  altmans_confidence : Slider
  altmans_summary : Int
  summaryEnabled : Bool
  pageIndex : Int
  sizeWH : Int × Int
  geometry : List Nat
  windowStateBlob : List Nat
  settings : QSettings
  connections : List (Signal × Handler)
  dbInserts : List InsertCall
  deleteCalls : List (String × String)
  altmans_model : Option String
deriving DecidableEq

/-- The five sliders in the order the source lists them. -/
def sliderList (w : MainWindow) : List Slider :=
  [w.altmans_sleep, w.altmans_speech, w.altmans_activity, w.altmans_cheer,
   w.altmans_confidence]

/-- The five slider values in source order. -/
def sliderVals (w : MainWindow) : List Int :=
  (sliderList w).map Slider.val

/-- Spec-side aggregate: the sum of the values that are strictly positive. -/
def zeroFilteredSum (vs : List Int) : Int :=
  (vs.filter (fun v => decide (0 < v))).sum

/-- Spec-side positive part of a single value. -/
def positivePart (v : Int) : Int :=
  if 0 < v then v else 0

/-- `update_altmans_summary`: collect the values of the sliders whose value is
strictly positive, sum them, and write the sum into the summary field. -/
def update_altmans_summary (w : MainWindow) : MainWindow :=
  let values := ((sliderList w).filter (fun slider => decide (0 < slider.val))).map
    Slider.val
  let altmans_sum := values.sum
  { w with altmans_summary := altmans_sum }

/-- A window whose five sliders hold the given values (range already [0,4]),
used to state properties of the summary recomputation pointwise. -/
def mkTestWindow (a b c d e : Int) : MainWindow :=
  { altman_date := 0
    altman_time := 0
    altmans_sleep := ⟨0, 4, a⟩
    altmans_speech := ⟨0, 4, b⟩
    altmans_activity := ⟨0, 4, c⟩
    altmans_cheer := ⟨0, 4, d⟩
    altmans_confidence := ⟨0, 4, e⟩
    altmans_summary := 0
    summaryEnabled := false
    pageIndex := 0
    sizeWH := (800, 460)
    geometry := []
    windowStateBlob := []
    settings := ⟨[], []⟩
    connections := []
    dbInserts := []
    deleteCalls := []
    altmans_model := none }

/-- The field-name mapping passed to `add_altmans_data` at the commit call
site, exactly as written in `altman_table_commit`. -/
def altmanFieldMapping : List (String × String) :=
  [("altman_date", "altman_date"),
   ("altman_time", "altman_time"),
   ("altmans_sleep", "altmans_sleep"),
   ("altmans_speech", "altmans_speech"),
   ("altmans_activity", "altmans_activity"),
   ("altmans_cheer", "altmans_cheer"),
   ("altmans_confidence", "altmans_confidence"),
   ("altmans_summary", "altmans_summary"),
   ("model", "altmans_model")]

/-- The widget values as read at one instant. -/
def snapshotRow (w : MainWindow) : AltmanRow :=
  { altman_date := w.altman_date
    altman_time := w.altman_time
    altmans_sleep := w.altmans_sleep.val
    altmans_speech := w.altmans_speech.val
    altmans_activity := w.altmans_activity.val
    altmans_cheer := w.altmans_cheer.val
    altmans_confidence := w.altmans_confidence.val
    altmans_summary := w.altmans_summary }

/-- Modelled from the spec: `add_altmans_data` (module
`database.altman_add_data`, outside the sources) gathers the current values
of the widgets named by the field-name mapping and hands them, with the
mapping, to the external insert operation; recorded here as one trace entry. -/
def add_altmans_data (w : MainWindow) (mapping : List (String × String)) :
    MainWindow :=
  { w with dbInserts := w.dbInserts ++ [{ mapping := mapping, row := snapshotRow w }] }

/-- Modelled from the spec: `delete_selected_rows` (module
`database.database_utility.delete_records`, outside the sources) receives the
table identifier and the model identifier and performs the deletion;
recorded here as one trace entry. -/
def delete_selected_rows (w : MainWindow) (table model : String) : MainWindow :=
  { w with deleteCalls := w.deleteCalls ++ [(table, model)] }

/-- `on_page_changed(index)`: store the new page index under
`lastPageIndex`.  The index argument carried by `currentChanged` equals the
stack's current index at emission time. -/
def on_page_changed (w : MainWindow) : MainWindow :=
  { w with settings := w.settings.setValue "lastPageIndex" (QVariant.intVal w.pageIndex) }

/-- Run one slot without re-emitting `currentChanged`.  This non-emitting
variant is what runs inside a `currentChanged` emission; in this program the
only slot connected to `currentChanged` is `on_page_changed`, which never
switches pages, so no nested emission is ever cut short. -/
def runLeafHandler (h : Handler) (w : MainWindow) : MainWindow :=
  match h with
  | .updateSummary => update_altmans_summary w
  | .commitData => add_altmans_data w altmanFieldMapping
  | .deleteRows => delete_selected_rows w "altmans_manic_rating_table" "altmans_model"
  | .onPageChanged => on_page_changed w
  | .switchone => { w with pageIndex := 0, sizeWH := (476, 175) }
  | .switchtwo => { w with pageIndex := 1, sizeWH := (800, 460) }
  | .changeStackPage p => { w with pageIndex := p }

/-- The slots connected to a signal, in connection order. -/
def handlersFor (conns : List (Signal × Handler)) (s : Signal) : List Handler :=
  (conns.filter (fun c => decide (c.1 = s))).map (fun c => c.2)

/-- Emit `currentChanged`: run every connected slot in connection order. -/
def emitCurrentChanged (w : MainWindow) : MainWindow :=
  (handlersFor w.connections Signal.currentChanged).foldl
    (fun acc h => runLeafHandler h acc) w

/-- `stackedWidget.setCurrentIndex(i)`: Qt changes the current index and
emits `currentChanged` exactly when the index actually changes. -/
def setCurrentIndexE (w : MainWindow) (i : Int) : MainWindow :=
  if w.pageIndex = i then w else emitCurrentChanged { w with pageIndex := i }

/-- `switchone`: switch the stack to the exam page and fix the size. -/
def switchone (w : MainWindow) : MainWindow :=
  { (setCurrentIndexE w 0) with sizeWH := (476, 175) }

/-- `switchtwo`: switch the stack to the table page and fix the size. -/
def switchtwo (w : MainWindow) : MainWindow :=
  { (setCurrentIndexE w 1) with sizeWH := (800, 460) }

/-- Modelled from the spec: `change_stack_page` (module
`navigation.master_navigation`, outside the sources) is the external
page-navigation helper that switches the stacked widget to the given page. -/
def change_stack_page (w : MainWindow) (p : Int) : MainWindow :=
  setCurrentIndexE w p

/-- Run one slot, with page switches emitting `currentChanged`. -/
def runHandler (h : Handler) (w : MainWindow) : MainWindow :=
  match h with
  | .switchone => switchone w
  | .switchtwo => switchtwo w
  | .changeStackPage p => change_stack_page w p
  | h0 => runLeafHandler h0 w

/-- Emit a signal: run every connected slot in connection order. -/
def runSignal (w : MainWindow) (s : Signal) : MainWindow :=
  (handlersFor w.connections s).foldl (fun acc h => runHandler h acc) w

/-- `signal.connect(slot)`: append one connection. -/
def connectSig (w : MainWindow) (s : Signal) (h : Handler) : MainWindow :=
  { w with connections := w.connections ++ [(s, h)] }

/-- `app_operations`: connect `currentChanged` to `on_page_changed`, restore
the last page index (default 0), and set the time and date widgets to the
current time and date. -/
def app_operations (w : MainWindow) (today now : Int) : MainWindow :=
  let w1 := connectSig w .currentChanged .onPageChanged
  let lastIndex := (w1.settings.value "lastPageIndex" (QVariant.intVal 0)).asInt
  let w2 := setCurrentIndexE w1 lastIndex
  { w2 with altman_time := now, altman_date := today }

/-- `switch_page_view_setup`: connect the two menu actions to the two page
switchers. -/
def switch_page_view_setup (w : MainWindow) : MainWindow :=
  connectSig (connectSig w .examTriggered .switchone) .tableTriggered .switchtwo

/-- `stack_navigation`: connect the two menu actions to `change_stack_page`
with their page numbers. -/
def stack_navigation (w : MainWindow) : MainWindow :=
  connectSig (connectSig w .examTriggered (.changeStackPage 0))
    .tableTriggered (.changeStackPage 1)

/-- `altman_table_commit`: connect the commit action to the insert call with
the fixed field mapping, disable the summary field, set every slider's range
to [0,4], and connect each slider's `valueChanged` to the recomputation. -/
def altman_table_commit (w : MainWindow) : MainWindow :=
  let w1 := connectSig w .commitTriggered .commitData
  let w2 := { w1 with summaryEnabled := false }
  let w3 := { w2 with
    altmans_sleep := w2.altmans_sleep.setRange 0 4
    altmans_speech := w2.altmans_speech.setRange 0 4
    altmans_activity := w2.altmans_activity.setRange 0 4
    altmans_cheer := w2.altmans_cheer.setRange 0 4
    altmans_confidence := w2.altmans_confidence.setRange 0 4 }
  let w4 := connectSig w3 .sleepChanged .updateSummary
  let w5 := connectSig w4 .speechChanged .updateSummary
  let w6 := connectSig w5 .activityChanged .updateSummary
  let w7 := connectSig w6 .cheerChanged .updateSummary
  connectSig w7 .confidenceChanged .updateSummary

/-- `delete_group`: connect the delete action to the external row deletion. -/
def delete_group (w : MainWindow) : MainWindow :=
  connectSig w .deleteTriggered .deleteRows

/-- `setup_models`: bind the table view to a model over `altman_table`
(external `create_and_set_model`). -/
def setup_models (w : MainWindow) : MainWindow :=
  { w with altmans_model := some "altman_table" }

/-- `restore_state`: restore geometry and window state from the settings
store, with an empty byte array as the default on a missing key. -/
def restore_state (w : MainWindow) : MainWindow :=
  let w1 := { w with
    geometry := (w.settings.value "geometry" (QVariant.blobVal [])).asBlob }
  { w1 with
    windowStateBlob := (w1.settings.value "windowState" (QVariant.blobVal [])).asBlob }

/-- `save_state`: attempt the geometry write and the window-state write, each
inside its own try/except block; a failure of either write is caught and
logged there, so the other write is still attempted. -/
def save_state (w : MainWindow) (geoFails winFails : Bool) : MainWindow :=
  let s1 := w.settings.attemptSetValue "geometry" (QVariant.blobVal w.geometry) geoFails
  let s2 := s1.attemptSetValue "windowState" (QVariant.blobVal w.windowStateBlob) winFails
  { w with settings := s2 }

/-- `closeEvent`: call `save_state` (inside one more try/except). -/
def closeEvent (w : MainWindow) (geoFails winFails : Bool) : MainWindow :=
  save_state w geoFails winFails

/-- The `__init__` sequence of `MainWindow`, in source order, starting from a
freshly constructed widget tree (which has no connections yet).  `today` and
`now` are the current date and time. -/
def initWindow (w0 : MainWindow) (today now : Int) : MainWindow :=
  let w1 := { w0 with connections := [] }
  let w2 := setup_models w1
  let w3 := app_operations w2 today now
  let w4 := restore_state w3
  let w5 := stack_navigation w4
  let w6 := delete_group w5
  let w7 := update_altmans_summary w6
  let w8 := altman_table_commit w7
  switch_page_view_setup w8

/-- The connection list produced by the `__init__` sequence. -/
def initConnections : List (Signal × Handler) :=
  [(.currentChanged, .onPageChanged),
   (.examTriggered, .changeStackPage 0),
   (.tableTriggered, .changeStackPage 1),
   (.deleteTriggered, .deleteRows),
   (.commitTriggered, .commitData),
   (.sleepChanged, .updateSummary),
   (.speechChanged, .updateSummary),
   (.activityChanged, .updateSummary),
   (.cheerChanged, .updateSummary),
   (.confidenceChanged, .updateSummary),
   (.examTriggered, .switchone),
   (.tableTriggered, .switchtwo)]

/-- The discrete user actions the window reacts to after construction. -/
inductive Event where
  | sleepMoved : Int → Event
  | speechMoved : Int → Event
  | activityMoved : Int → Event
  | cheerMoved : Int → Event
  | confidenceMoved : Int → Event
  | commitClicked
  | deleteClicked
  | examClicked
  | tableClicked
deriving DecidableEq

/-- One event step.  Moving a slider clamps the value into the slider's
range; Qt emits `valueChanged` exactly when the stored value changes. -/
def step (w : MainWindow) (e : Event) : MainWindow :=
  match e with
  | .sleepMoved v =>
      let s := w.altmans_sleep.setValue v
      if s.val = w.altmans_sleep.val then { w with altmans_sleep := s }
      else runSignal { w with altmans_sleep := s } .sleepChanged
  | .speechMoved v =>
      let s := w.altmans_speech.setValue v
      if s.val = w.altmans_speech.val then { w with altmans_speech := s }
      else runSignal { w with altmans_speech := s } .speechChanged
  | .activityMoved v =>
      let s := w.altmans_activity.setValue v
      if s.val = w.altmans_activity.val then { w with altmans_activity := s }
      else runSignal { w with altmans_activity := s } .activityChanged
  | .cheerMoved v =>
      let s := w.altmans_cheer.setValue v
      if s.val = w.altmans_cheer.val then { w with altmans_cheer := s }
      else runSignal { w with altmans_cheer := s } .cheerChanged
  | .confidenceMoved v =>
      let s := w.altmans_confidence.setValue v
      if s.val = w.altmans_confidence.val then { w with altmans_confidence := s }
      else runSignal { w with altmans_confidence := s } .confidenceChanged
  | .commitClicked => runSignal w .commitTriggered
  | .deleteClicked => runSignal w .deleteTriggered
  | .examClicked => runSignal w .examTriggered
  | .tableClicked => runSignal w .tableTriggered

/-- Apply a sequence of events in order. -/
def applyEvents (w : MainWindow) (evs : List Event) : MainWindow :=
  evs.foldl step w

/-- All five values lie in the slider range [0,4]. -/
def InRange5 (a b c d e : Int) : Prop :=
  (0 ≤ a ∧ a ≤ 4) ∧ (0 ≤ b ∧ b ≤ 4) ∧ (0 ≤ c ∧ c ≤ 4) ∧
    (0 ≤ d ∧ d ≤ 4) ∧ (0 ≤ e ∧ e ≤ 4)

instance (a b c d e : Int) : Decidable (InRange5 a b c d e) := by
  unfold InRange5; infer_instance

/-- The five sliders as one tuple, for frame lemmas. -/
def slidersOf (w : MainWindow) :
    Slider × Slider × Slider × Slider × Slider :=
  (w.altmans_sleep, w.altmans_speech, w.altmans_activity, w.altmans_cheer,
   w.altmans_confidence)

/-- A slider whose range is [0,4] and whose value lies in that range. -/
def GoodSlider (s : Slider) : Prop :=
  s.lo = 0 ∧ s.hi = 4 ∧ 0 ≤ s.val ∧ s.val ≤ 4

/-- All five sliders have range [0,4] and in-range values. -/
def RangeInv (w : MainWindow) : Prop :=
  GoodSlider w.altmans_sleep ∧ GoodSlider w.altmans_speech ∧
    GoodSlider w.altmans_activity ∧ GoodSlider w.altmans_cheer ∧
    GoodSlider w.altmans_confidence

/-- The summary field shows the zero-filtered sum of the current slider
values. -/
def SummaryInv (w : MainWindow) : Prop :=
  w.altmans_summary = zeroFilteredSum (sliderVals w)

/-- The five slider values of a freshly constructed widget tree lie in
[0,4] (the generated form initialises each slider's value to 0). -/
def InitValsInRange (w : MainWindow) : Prop :=
  InRange5 w.altmans_sleep.val w.altmans_speech.val w.altmans_activity.val
    w.altmans_cheer.val w.altmans_confidence.val

instance (w : MainWindow) : Decidable (InitValsInRange w) := by
  unfold InitValsInRange; infer_instance

/-- Outcome of one underlying operation inside a wiring method: it raises
(with the given message) exactly when `fails` is true. -/
def opResult (fails : Bool) (msg : String) : Except String Unit :=
  if fails then Except.error msg else Except.ok ()

/-- A `try ... except Exception as e: logger.error(...)` boundary: whatever
the body raises is logged and swallowed. -/
def tryLog (body : Except String Unit) : Except String Unit :=
  match body with
  | .ok _ => Except.ok ()
  | .error _ => Except.ok ()

/-- Exception structure of `app_operations`: the whole body sits in one
try/except block. -/
def app_operations_exc (f1 f2 f3 : Bool) : Except String Unit :=
  tryLog (do
    opResult f1 "connect currentChanged"
    opResult f2 "read lastPageIndex and set current index"
    opResult f3 "set time and date")

/-- Exception structure of `on_page_changed`: the settings write sits in a
try/except block. -/
def on_page_changed_exc (f : Bool) : Except String Unit :=
  tryLog (opResult f "setValue lastPageIndex")

/-- Exception structure of `stack_navigation`: the connection loop sits in a
try/except block. -/
def stack_navigation_exc (f : Bool) : Except String Unit :=
  tryLog (opResult f "connect navigation actions")

/-- Exception structure of `altman_table_commit`: only the commit-action
connection sits in the try/except block; the summary disabling, the slider
range setting and the five `valueChanged` connections run after the block,
unguarded. -/
def altman_table_commit_exc (f1 f2 : Bool) : Except String Unit := do
  tryLog (opResult f1 "connect actionCommit")
  opResult f2 "slider range setup and valueChanged connections"

/-- Exception structure of `update_altmans_summary`: the recomputation sits
in a try/except block. -/
def update_altmans_summary_exc (f : Bool) : Except String Unit :=
  tryLog (opResult f "read sliders and set summary")

/-- Exception structure of `delete_group`: the delete-action connection is
not guarded by any try/except. -/
def delete_group_exc (f : Bool) : Except String Unit :=
  opResult f "connect actionDelete"

/-- Exception structure of `setup_models`: the model creation is not guarded
by any try/except. -/
def setup_models_exc (f : Bool) : Except String Unit :=
  opResult f "create_and_set_model"

/-- Exception structure of `switch_page_view_setup`: the two action
connections are not guarded by any try/except. -/
def switch_page_view_setup_exc (f1 f2 : Bool) : Except String Unit := do
  opResult f1 "connect actionShowAltmanExam"
  opResult f2 "connect actionShowAltmanTable"

/-- Exception structure of `save_state`: each settings write sits in its own
try/except block. -/
def save_state_exc (f1 f2 : Bool) : Except String Unit := do
  tryLog (opResult f1 "setValue geometry")
  tryLog (opResult f2 "setValue windowState")

/-- Exception structure of `restore_state`: each settings read sits in its
own try/except block. -/
def restore_state_exc (f1 f2 : Bool) : Except String Unit := do
  tryLog (opResult f1 "restoreGeometry")
  tryLog (opResult f2 "restoreState")

/-- Exception structure of `closeEvent`: the `save_state` call sits in a
try/except block. -/
def closeEvent_exc (f1 f2 : Bool) : Except String Unit :=
  tryLog (save_state_exc f1 f2)

/-- Filtering sliders by positivity and then taking values is the same as
taking values and then filtering by positivity. -/
theorem filter_map_val (l : List Slider) :
    (l.filter (fun s => decide (0 < s.val))).map Slider.val =
      (l.map Slider.val).filter (fun v => decide (0 < v)) := by
  induction l with
  | nil => rfl
  | cons s t ih =>
      by_cases h : 0 < s.val <;> simp [List.filter_cons, h, ih]

/-- The summary written by `update_altmans_summary` is the zero-filtered sum
of the slider values. -/
theorem update_summary_eq (w : MainWindow) :
    (update_altmans_summary w).altmans_summary = zeroFilteredSum (sliderVals w) := by
  simp [update_altmans_summary, zeroFilteredSum, sliderVals, filter_map_val]

/-- Unfolding of the zero-filtered sum on a cons cell. -/
theorem zeroFilteredSum_cons (v : Int) (vs : List Int) :
    zeroFilteredSum (v :: vs) = positivePart v + zeroFilteredSum vs := by
  by_cases h : 0 < v <;>
    simp [zeroFilteredSum, positivePart, List.filter_cons, h]

/-- The zero-filtered sum of the empty list. -/
theorem zeroFilteredSum_nil : zeroFilteredSum [] = 0 := rfl

/-- A nonnegative value equals its positive part. -/
theorem positivePart_of_nonneg (v : Int) (h : 0 ≤ v) : positivePart v = v := by
  unfold positivePart; split <;> omega

/-- The zero-filtered sum of five values written out pointwise. -/
theorem zeroFilteredSum_five (a b c d e : Int) :
    zeroFilteredSum [a, b, c, d, e] =
      positivePart a + positivePart b + positivePart c + positivePart d +
        positivePart e := by
  simp [zeroFilteredSum_cons, zeroFilteredSum_nil]
  ring

/-- C1: for every combination of the five slider values, each in [0,4], the
summary recomputation writes the sum of the values that are greater than zero
into the summary field; in particular (0,2,0,3,4) yields 9, (0,0,0,0,0)
yields 0, and (4,4,4,4,4) yields 20. -/
theorem C1_update_summary_positive_sum (a b c d e : Int)
    (h : InRange5 a b c d e) :
    (update_altmans_summary (mkTestWindow a b c d e)).altmans_summary =
        positivePart a + positivePart b + positivePart c + positivePart d + positivePart e ∧
      (update_altmans_summary (mkTestWindow 0 2 0 3 4)).altmans_summary = 9 ∧
      (update_altmans_summary (mkTestWindow 0 0 0 0 0)).altmans_summary = 0 ∧
      (update_altmans_summary (mkTestWindow 4 4 4 4 4)).altmans_summary = 20 := by
  refine ⟨?_, by decide, by decide, by decide⟩
  have hv : sliderVals (mkTestWindow a b c d e) = [a, b, c, d, e] := rfl
  rw [update_summary_eq, hv, zeroFilteredSum_five]

/-- Witness for C1 at the concrete input (0,2,0,3,4). -/
theorem C1_update_summary_positive_sum_witness :
    (update_altmans_summary (mkTestWindow 0 2 0 3 4)).altmans_summary =
        positivePart 0 + positivePart 2 + positivePart 0 + positivePart 3 + positivePart 4 ∧
      (update_altmans_summary (mkTestWindow 0 2 0 3 4)).altmans_summary = 9 ∧
      (update_altmans_summary (mkTestWindow 0 0 0 0 0)).altmans_summary = 0 ∧
      (update_altmans_summary (mkTestWindow 4 4 4 4 4)).altmans_summary = 20 :=
  C1_update_summary_positive_sum 0 2 0 3 4 (by decide)

/-- C7: on the slider domain [0,4] the zero-filtered aggregate computed by
`update_altmans_summary` coincides with the plain unfiltered sum of all five
values. -/
theorem C7_filtered_sum_eq_plain_sum (a b c d e : Int)
    (h : InRange5 a b c d e) :
    (update_altmans_summary (mkTestWindow a b c d e)).altmans_summary =
      a + b + c + d + e := by
  obtain ⟨⟨ha0, _⟩, ⟨hb0, _⟩, ⟨hc0, _⟩, ⟨hd0, _⟩, ⟨he0, _⟩⟩ := h
  have hv : sliderVals (mkTestWindow a b c d e) = [a, b, c, d, e] := rfl
  rw [update_summary_eq, hv, zeroFilteredSum_five,
    positivePart_of_nonneg a ha0, positivePart_of_nonneg b hb0,
    positivePart_of_nonneg c hc0, positivePart_of_nonneg d hd0,
    positivePart_of_nonneg e he0]

/-- Witness for C7 at the concrete input (0,2,0,3,4). -/
theorem C7_filtered_sum_eq_plain_sum_witness :
    (update_altmans_summary (mkTestWindow 0 2 0 3 4)).altmans_summary =
      0 + 2 + 0 + 3 + 4 :=
  C7_filtered_sum_eq_plain_sum 0 2 0 3 4 (by decide)

/-- C9: `update_altmans_summary` writes only the summary field: the settings
store, the insert/delete call traces, the date, the time, the five sliders,
and every other component of the window state are left unchanged. -/
theorem C9_update_summary_frame (w : MainWindow) :
    (update_altmans_summary w).altmans_summary = zeroFilteredSum (sliderVals w) ∧
      (update_altmans_summary w).settings = w.settings ∧
      (update_altmans_summary w).dbInserts = w.dbInserts ∧
      (update_altmans_summary w).deleteCalls = w.deleteCalls ∧
      (update_altmans_summary w).altman_date = w.altman_date ∧
      (update_altmans_summary w).altman_time = w.altman_time ∧
      (update_altmans_summary w).altmans_sleep = w.altmans_sleep ∧
      (update_altmans_summary w).altmans_speech = w.altmans_speech ∧
      (update_altmans_summary w).altmans_activity = w.altmans_activity ∧
      (update_altmans_summary w).altmans_cheer = w.altmans_cheer ∧
      (update_altmans_summary w).altmans_confidence = w.altmans_confidence ∧
      (update_altmans_summary w).summaryEnabled = w.summaryEnabled ∧
      (update_altmans_summary w).pageIndex = w.pageIndex ∧
      (update_altmans_summary w).sizeWH = w.sizeWH ∧
      (update_altmans_summary w).geometry = w.geometry ∧
      (update_altmans_summary w).windowStateBlob = w.windowStateBlob ∧
      (update_altmans_summary w).connections = w.connections ∧
      (update_altmans_summary w).altmans_model = w.altmans_model := by
  refine ⟨update_summary_eq w, ?_⟩
  simp [update_altmans_summary]

/-- Folding a window transformer over a handler list preserves any
projection that every single application preserves. -/
theorem foldl_proj {α : Type} (proj : MainWindow → α)
    (f : Handler → MainWindow → MainWindow)
    (hp : ∀ h w, proj (f h w) = proj w) :
    ∀ (l : List Handler) (w : MainWindow),
      proj (l.foldl (fun acc h => f h acc) w) = proj w := by
  intro l
  induction l with
  | nil => intro w; rfl
  | cons h t ih => intro w; rw [List.foldl_cons, ih, hp]

/-- No slot ever changes the connection list. -/
theorem runLeafHandler_connections (h : Handler) (w : MainWindow) :
    (runLeafHandler h w).connections = w.connections := by
  cases h <;>
    simp [runLeafHandler, update_altmans_summary, add_altmans_data,
      delete_selected_rows, on_page_changed]

/-- No slot ever changes a slider. -/
theorem runLeafHandler_sliders (h : Handler) (w : MainWindow) :
    slidersOf (runLeafHandler h w) = slidersOf w := by
  cases h <;>
    simp [runLeafHandler, slidersOf, update_altmans_summary, add_altmans_data,
      delete_selected_rows, on_page_changed]

/-- Emitting `currentChanged` preserves the connection list. -/
theorem emitCC_connections (w : MainWindow) :
    (emitCurrentChanged w).connections = w.connections := by
  unfold emitCurrentChanged
  exact foldl_proj _ _ runLeafHandler_connections _ w

/-- Emitting `currentChanged` preserves the sliders. -/
theorem emitCC_sliders (w : MainWindow) :
    slidersOf (emitCurrentChanged w) = slidersOf w := by
  unfold emitCurrentChanged
  exact foldl_proj _ _ runLeafHandler_sliders _ w

/-- Switching the stack index preserves the connection list. -/
theorem setCurrentIndexE_connections (w : MainWindow) (i : Int) :
    (setCurrentIndexE w i).connections = w.connections := by
  unfold setCurrentIndexE
  split
  case isTrue => rfl
  case isFalse => rw [emitCC_connections]

/-- Switching the stack index preserves the sliders. -/
theorem setCurrentIndexE_sliders (w : MainWindow) (i : Int) :
    slidersOf (setCurrentIndexE w i) = slidersOf w := by
  unfold setCurrentIndexE
  split
  case isTrue => rfl
  case isFalse => rw [emitCC_sliders]; rfl

/-- Running any slot (with page-switch emission) preserves the connection
list. -/
theorem runHandler_connections (h : Handler) (w : MainWindow) :
    (runHandler h w).connections = w.connections := by
  cases h <;>
    simp [runHandler, switchone, switchtwo, change_stack_page,
      setCurrentIndexE_connections, runLeafHandler_connections]

/-- Running any slot (with page-switch emission) preserves the sliders. -/
theorem runHandler_sliders (h : Handler) (w : MainWindow) :
    slidersOf (runHandler h w) = slidersOf w := by
  cases h with
  | updateSummary => exact runLeafHandler_sliders .updateSummary w
  | commitData => exact runLeafHandler_sliders .commitData w
  | deleteRows => exact runLeafHandler_sliders .deleteRows w
  | onPageChanged => exact runLeafHandler_sliders .onPageChanged w
  | switchone => exact setCurrentIndexE_sliders w 0
  | switchtwo => exact setCurrentIndexE_sliders w 1
  | changeStackPage p => exact setCurrentIndexE_sliders w p

/-- Emitting any signal preserves the connection list. -/
theorem runSignal_connections (w : MainWindow) (s : Signal) :
    (runSignal w s).connections = w.connections := by
  unfold runSignal
  exact foldl_proj _ _ runHandler_connections _ w

/-- Emitting any signal preserves the sliders. -/
theorem runSignal_sliders (w : MainWindow) (s : Signal) :
    slidersOf (runSignal w s) = slidersOf w := by
  unfold runSignal
  exact foldl_proj _ _ runHandler_sliders _ w

/-- No event changes the connection list. -/
theorem step_connections (w : MainWindow) (e : Event) :
    (step w e).connections = w.connections := by
  cases e <;>
    simp only [step, runSignal_connections] <;>
    first
      | rfl
      | (split <;> simp [runSignal_connections])

/-- No event sequence changes the connection list. -/
theorem applyEvents_connections (w : MainWindow) (evs : List Event) :
    (applyEvents w evs).connections = w.connections := by
  induction evs generalizing w with
  | nil => rfl
  | cons e t ih =>
      show (applyEvents (step w e) t).connections = w.connections
      rw [ih, step_connections]

/-- `setup_models` touches only the model binding. -/
theorem setup_models_char (w : MainWindow) :
    slidersOf (setup_models w) = slidersOf w ∧
      (setup_models w).altmans_summary = w.altmans_summary ∧
      (setup_models w).connections = w.connections ∧
      (setup_models w).pageIndex = w.pageIndex ∧
      (setup_models w).geometry = w.geometry ∧
      (setup_models w).windowStateBlob = w.windowStateBlob ∧
      (setup_models w).settings = w.settings := by
  simp [setup_models, slidersOf]

/-- With only `on_page_changed` connected to `currentChanged`, an emission
runs exactly `on_page_changed`. -/
theorem emitCC_single (w : MainWindow)
    (hc : w.connections = [(Signal.currentChanged, Handler.onPageChanged)]) :
    emitCurrentChanged w = on_page_changed w := by
  unfold emitCurrentChanged
  rw [hc]
  rfl

/-- Switching the stack index, when only `on_page_changed` is connected to
`currentChanged`, either does nothing or switches the page and stores the
new index. -/
theorem setCE_single (w : MainWindow) (i : Int)
    (hc : w.connections = [(Signal.currentChanged, Handler.onPageChanged)]) :
    setCurrentIndexE w i =
      if w.pageIndex = i then w
      else on_page_changed { w with pageIndex := i } := by
  by_cases h : w.pageIndex = i
  · simp [setCurrentIndexE, h]
  · have hc2 : ({ w with pageIndex := i } : MainWindow).connections =
        [(Signal.currentChanged, Handler.onPageChanged)] := hc
    simp [setCurrentIndexE, h, emitCC_single _ hc2]

/-- `app_operations`, applied to a window with no connections yet: it adds
the `currentChanged` connection, leaves sliders, summary, geometry and
window-state untouched, sets the page index to the stored `lastPageIndex`
(default 0), sets the date and time widgets, and at most stores the restored
index back. -/
theorem app_operations_char (w : MainWindow) (t n : Int)
    (hc : w.connections = []) :
    slidersOf (app_operations w t n) = slidersOf w ∧
      (app_operations w t n).altmans_summary = w.altmans_summary ∧
      (app_operations w t n).connections =
        [(Signal.currentChanged, Handler.onPageChanged)] ∧
      (app_operations w t n).pageIndex =
        (w.settings.value "lastPageIndex" (QVariant.intVal 0)).asInt ∧
      (app_operations w t n).geometry = w.geometry ∧
      (app_operations w t n).windowStateBlob = w.windowStateBlob ∧
      ((app_operations w t n).settings.entries = w.settings.entries ∨
        (app_operations w t n).settings.entries =
          ("lastPageIndex",
            QVariant.intVal
              ((w.settings.value "lastPageIndex" (QVariant.intVal 0)).asInt)) ::
            w.settings.entries) := by
  have hc1 : ({ w with connections :=
      w.connections ++ [(Signal.currentChanged, Handler.onPageChanged)] } :
        MainWindow).connections =
      [(Signal.currentChanged, Handler.onPageChanged)] := by
    show w.connections ++ _ = _
    rw [hc]
    rfl
  simp only [app_operations, connectSig]
  rw [setCE_single _ _ hc1]
  split
  case isTrue h =>
      refine ⟨rfl, rfl, hc1, ?_, rfl, rfl, Or.inl rfl⟩
      exact h
  case isFalse h =>
      refine ⟨rfl, rfl, hc1, rfl, rfl, rfl, Or.inr ?_⟩
      simp [on_page_changed, QSettings.setValue, QSettings.attemptSetValue]

/-- `restore_state` touches only the geometry and window-state fields,
reading them from the settings store with empty defaults. -/
theorem restore_state_char (w : MainWindow) :
    slidersOf (restore_state w) = slidersOf w ∧
      (restore_state w).altmans_summary = w.altmans_summary ∧
      (restore_state w).connections = w.connections ∧
      (restore_state w).pageIndex = w.pageIndex ∧
      (restore_state w).geometry =
        (w.settings.value "geometry" (QVariant.blobVal [])).asBlob ∧
      (restore_state w).windowStateBlob =
        (w.settings.value "windowState" (QVariant.blobVal [])).asBlob ∧
      (restore_state w).settings = w.settings := by
  simp [restore_state, slidersOf]

/-- `stack_navigation` only appends its two connections. -/
theorem stack_navigation_char (w : MainWindow) :
    slidersOf (stack_navigation w) = slidersOf w ∧
      (stack_navigation w).altmans_summary = w.altmans_summary ∧
      (stack_navigation w).connections = w.connections ++
        [(Signal.examTriggered, Handler.changeStackPage 0),
         (Signal.tableTriggered, Handler.changeStackPage 1)] ∧
      (stack_navigation w).pageIndex = w.pageIndex ∧
      (stack_navigation w).geometry = w.geometry ∧
      (stack_navigation w).windowStateBlob = w.windowStateBlob ∧
      (stack_navigation w).settings = w.settings := by
  simp [stack_navigation, connectSig, slidersOf]

/-- `delete_group` only appends its connection. -/
theorem delete_group_char (w : MainWindow) :
    slidersOf (delete_group w) = slidersOf w ∧
      (delete_group w).altmans_summary = w.altmans_summary ∧
      (delete_group w).connections = w.connections ++
        [(Signal.deleteTriggered, Handler.deleteRows)] ∧
      (delete_group w).pageIndex = w.pageIndex ∧
      (delete_group w).geometry = w.geometry ∧
      (delete_group w).windowStateBlob = w.windowStateBlob ∧
      (delete_group w).settings = w.settings := by
  simp [delete_group, connectSig, slidersOf]

/-- `update_altmans_summary` leaves everything but the summary unchanged. -/
theorem update_char (w : MainWindow) :
    slidersOf (update_altmans_summary w) = slidersOf w ∧
      (update_altmans_summary w).altmans_summary =
        zeroFilteredSum (sliderVals w) ∧
      (update_altmans_summary w).connections = w.connections ∧
      (update_altmans_summary w).pageIndex = w.pageIndex ∧
      (update_altmans_summary w).geometry = w.geometry ∧
      (update_altmans_summary w).windowStateBlob = w.windowStateBlob ∧
      (update_altmans_summary w).settings = w.settings := by
  refine ⟨?_, update_summary_eq w, ?_, ?_, ?_, ?_, ?_⟩ <;>
    simp [update_altmans_summary, slidersOf]

/-- `altman_table_commit`: appends its six connections, sets each slider's
range to [0,4], and leaves the summary value, page, geometry and settings
unchanged. -/
theorem altman_table_commit_char (w : MainWindow) :
    slidersOf (altman_table_commit w) =
        (w.altmans_sleep.setRange 0 4, w.altmans_speech.setRange 0 4,
         w.altmans_activity.setRange 0 4, w.altmans_cheer.setRange 0 4,
         w.altmans_confidence.setRange 0 4) ∧
      (altman_table_commit w).altmans_summary = w.altmans_summary ∧
      (altman_table_commit w).connections = w.connections ++
        [(Signal.commitTriggered, Handler.commitData),
         (Signal.sleepChanged, Handler.updateSummary),
         (Signal.speechChanged, Handler.updateSummary),
         (Signal.activityChanged, Handler.updateSummary),
         (Signal.cheerChanged, Handler.updateSummary),
         (Signal.confidenceChanged, Handler.updateSummary)] ∧
      (altman_table_commit w).pageIndex = w.pageIndex ∧
      (altman_table_commit w).geometry = w.geometry ∧
      (altman_table_commit w).windowStateBlob = w.windowStateBlob ∧
      (altman_table_commit w).settings = w.settings := by
  simp [altman_table_commit, connectSig, slidersOf]

/-- `switch_page_view_setup` only appends its two connections. -/
theorem switch_page_view_setup_char (w : MainWindow) :
    slidersOf (switch_page_view_setup w) = slidersOf w ∧
      (switch_page_view_setup w).altmans_summary = w.altmans_summary ∧
      (switch_page_view_setup w).connections = w.connections ++
        [(Signal.examTriggered, Handler.switchone),
         (Signal.tableTriggered, Handler.switchtwo)] ∧
      (switch_page_view_setup w).pageIndex = w.pageIndex ∧
      (switch_page_view_setup w).geometry = w.geometry ∧
      (switch_page_view_setup w).windowStateBlob = w.windowStateBlob ∧
      (switch_page_view_setup w).settings = w.settings := by
  simp [switch_page_view_setup, connectSig, slidersOf]

/-- Slider values are determined by the slider tuple. -/
theorem sliderVals_congr {wa wb : MainWindow}
    (h : slidersOf wa = slidersOf wb) : sliderVals wa = sliderVals wb := by
  have ha : sliderVals wa =
      [(slidersOf wa).1.val, (slidersOf wa).2.1.val, (slidersOf wa).2.2.1.val,
       (slidersOf wa).2.2.2.1.val, (slidersOf wa).2.2.2.2.val] := rfl
  have hb : sliderVals wb =
      [(slidersOf wb).1.val, (slidersOf wb).2.1.val, (slidersOf wb).2.2.1.val,
       (slidersOf wb).2.2.2.1.val, (slidersOf wb).2.2.2.2.val] := rfl
  rw [ha, hb, h]

/-- Reading a settings key depends only on the entry list. -/
theorem value_entries (s : QSettings) (key : String) (dflt : QVariant) :
    s.value key dflt = QSettings.value ⟨s.entries, []⟩ key dflt := rfl

/-- What the `__init__` sequence produces: the twelve connections in wiring
order; each slider re-ranged to [0,4]; the summary recomputed from the
construction-time slider values; the page index restored from the settings
store (default 0); and geometry/window-state restored from the store (whose
entries the restore may see with the page index written back first). -/
theorem initWindow_char (w0 : MainWindow) (t n : Int) :
    (initWindow w0 t n).connections = initConnections ∧
      slidersOf (initWindow w0 t n) =
        (w0.altmans_sleep.setRange 0 4, w0.altmans_speech.setRange 0 4,
         w0.altmans_activity.setRange 0 4, w0.altmans_cheer.setRange 0 4,
         w0.altmans_confidence.setRange 0 4) ∧
      (initWindow w0 t n).altmans_summary = zeroFilteredSum (sliderVals w0) ∧
      (initWindow w0 t n).pageIndex =
        (w0.settings.value "lastPageIndex" (QVariant.intVal 0)).asInt ∧
      ∃ entries2 : List (String × QVariant),
        (entries2 = w0.settings.entries ∨
          entries2 =
            ("lastPageIndex",
              QVariant.intVal
                ((w0.settings.value "lastPageIndex" (QVariant.intVal 0)).asInt)) ::
              w0.settings.entries) ∧
        (initWindow w0 t n).geometry =
          (QSettings.value ⟨entries2, []⟩ "geometry" (QVariant.blobVal [])).asBlob ∧
        (initWindow w0 t n).windowStateBlob =
          (QSettings.value ⟨entries2, []⟩ "windowState" (QVariant.blobVal [])).asBlob := by
  have base_settings : ({ w0 with connections := [] } : MainWindow).settings =
      w0.settings := rfl
  obtain ⟨s1a, s1b, s1c, s1d, s1e, s1f, s1g⟩ :=
    setup_models_char { w0 with connections := [] }
  obtain ⟨a2a, a2b, a2c, a2d, a2e, a2f, a2g⟩ :=
    app_operations_char (setup_models { w0 with connections := [] }) t n
      (by rw [s1c])
  obtain ⟨r3a, r3b, r3c, r3d, r3e, r3f, r3g⟩ :=
    restore_state_char (app_operations (setup_models
      { w0 with connections := [] }) t n)
  obtain ⟨n4a, n4b, n4c, n4d, n4e, n4f, n4g⟩ :=
    stack_navigation_char (restore_state (app_operations (setup_models
      { w0 with connections := [] }) t n))
  obtain ⟨d5a, d5b, d5c, d5d, d5e, d5f, d5g⟩ :=
    delete_group_char (stack_navigation (restore_state (app_operations
      (setup_models { w0 with connections := [] }) t n)))
  obtain ⟨u6a, u6b, u6c, u6d, u6e, u6f, u6g⟩ :=
    update_char (delete_group (stack_navigation (restore_state
      (app_operations (setup_models { w0 with connections := [] }) t n))))
  obtain ⟨t7a, t7b, t7c, t7d, t7e, t7f, t7g⟩ :=
    altman_table_commit_char (update_altmans_summary (delete_group
      (stack_navigation (restore_state (app_operations (setup_models
        { w0 with connections := [] }) t n)))))
  obtain ⟨p8a, p8b, p8c, p8d, p8e, p8f, p8g⟩ :=
    switch_page_view_setup_char (altman_table_commit (update_altmans_summary
      (delete_group (stack_navigation (restore_state (app_operations
        (setup_models { w0 with connections := [] }) t n))))))
  have hinit : initWindow w0 t n =
      switch_page_view_setup (altman_table_commit (update_altmans_summary
        (delete_group (stack_navigation (restore_state (app_operations
          (setup_models { w0 with connections := [] }) t n)))))) := rfl
  have hsl6 : slidersOf (update_altmans_summary (delete_group
      (stack_navigation (restore_state (app_operations (setup_models
        { w0 with connections := [] }) t n))))) = slidersOf w0 := by
    rw [u6a, d5a, n4a, r3a, a2a, s1a]
    rfl
  have hsettings2 : (app_operations (setup_models
      { w0 with connections := [] }) t n).settings.entries =
        w0.settings.entries ∨
      (app_operations (setup_models { w0 with connections := [] }) t n).settings.entries =
        ("lastPageIndex",
          QVariant.intVal
            ((w0.settings.value "lastPageIndex" (QVariant.intVal 0)).asInt)) ::
          w0.settings.entries := by
    rw [s1g, base_settings] at a2g
    exact a2g
  refine ⟨?_, ?_, ?_, ?_, ?_⟩
  · rw [hinit, p8c, t7c, u6c, d5c, n4c, r3c, a2c]
    rfl
  · rw [hinit]
    have h1 : slidersOf (switch_page_view_setup (altman_table_commit
        (update_altmans_summary (delete_group (stack_navigation
          (restore_state (app_operations (setup_models
            { w0 with connections := [] }) t n))))))) =
        slidersOf (altman_table_commit (update_altmans_summary (delete_group
          (stack_navigation (restore_state (app_operations (setup_models
            { w0 with connections := [] }) t n)))))) := p8a
    rw [h1, t7a]
    have f1 := congrArg (fun p => p.1) hsl6
    have f2 := congrArg (fun p => p.2.1) hsl6
    have f3 := congrArg (fun p => p.2.2.1) hsl6
    have f4 := congrArg (fun p => p.2.2.2.1) hsl6
    have f5 := congrArg (fun p => p.2.2.2.2) hsl6
    simp only [slidersOf] at f1 f2 f3 f4 f5
    rw [f1, f2, f3, f4, f5]
  · rw [hinit, p8b, t7b, u6b]
    have hv : sliderVals (delete_group (stack_navigation (restore_state
        (app_operations (setup_models { w0 with connections := [] }) t n)))) =
        sliderVals w0 := by
      refine sliderVals_congr ?_
      rw [d5a, n4a, r3a, a2a, s1a]
      rfl
    rw [hv]
  · rw [hinit, p8d, t7d, u6d, d5d, n4d, r3d, a2d, s1g, base_settings]
  · refine ⟨(app_operations (setup_models
      { w0 with connections := [] }) t n).settings.entries, hsettings2, ?_, ?_⟩
    · rw [hinit, p8e, t7e, u6e, d5e, n4e, r3e, value_entries]
    · rw [hinit, p8f, t7f, u6f, d5f, n4f, r3f, value_entries]

/-- After wiring, a sleep-slider change dispatches to the recomputation. -/
theorem runSignal_sleep (w : MainWindow)
    (hc : w.connections = initConnections) :
    runSignal w Signal.sleepChanged = update_altmans_summary w := by
  unfold runSignal
  rw [hc]
  rfl

/-- After wiring, a speech-slider change dispatches to the recomputation. -/
theorem runSignal_speech (w : MainWindow)
    (hc : w.connections = initConnections) :
    runSignal w Signal.speechChanged = update_altmans_summary w := by
  unfold runSignal
  rw [hc]
  rfl

/-- After wiring, an activity-slider change dispatches to the recomputation. -/
theorem runSignal_activity (w : MainWindow)
    (hc : w.connections = initConnections) :
    runSignal w Signal.activityChanged = update_altmans_summary w := by
  unfold runSignal
  rw [hc]
  rfl

/-- After wiring, a cheer-slider change dispatches to the recomputation. -/
theorem runSignal_cheer (w : MainWindow)
    (hc : w.connections = initConnections) :
    runSignal w Signal.cheerChanged = update_altmans_summary w := by
  unfold runSignal
  rw [hc]
  rfl

/-- After wiring, a confidence-slider change dispatches to the
recomputation. -/
theorem runSignal_confidence (w : MainWindow)
    (hc : w.connections = initConnections) :
    runSignal w Signal.confidenceChanged = update_altmans_summary w := by
  unfold runSignal
  rw [hc]
  rfl

/-- After wiring, triggering commit dispatches to the insert call with the
fixed field mapping. -/
theorem runSignal_commit (w : MainWindow)
    (hc : w.connections = initConnections) :
    runSignal w Signal.commitTriggered = add_altmans_data w altmanFieldMapping := by
  unfold runSignal
  rw [hc]
  rfl

/-- After wiring, triggering delete dispatches to the external deletion. -/
theorem runSignal_delete (w : MainWindow)
    (hc : w.connections = initConnections) :
    runSignal w Signal.deleteTriggered =
      delete_selected_rows w "altmans_manic_rating_table" "altmans_model" := by
  unfold runSignal
  rw [hc]
  rfl

/-- After wiring, the exam action runs `change_stack_page 0` and then
`switchone`. -/
theorem runSignal_exam (w : MainWindow)
    (hc : w.connections = initConnections) :
    runSignal w Signal.examTriggered = switchone (change_stack_page w 0) := by
  unfold runSignal
  rw [hc]
  rfl

/-- After wiring, the table action runs `change_stack_page 1` and then
`switchtwo`. -/
theorem runSignal_table (w : MainWindow)
    (hc : w.connections = initConnections) :
    runSignal w Signal.tableTriggered = switchtwo (change_stack_page w 1) := by
  unfold runSignal
  rw [hc]
  rfl

/-- Switching the stack index, after wiring, either does nothing or switches
the page and stores the new index. -/
theorem setCE_initConn (w : MainWindow) (i : Int)
    (hc : w.connections = initConnections) :
    setCurrentIndexE w i =
      if w.pageIndex = i then w
      else on_page_changed { w with pageIndex := i } := by
  by_cases h : w.pageIndex = i
  · simp [setCurrentIndexE, h]
  · have hc2 : ({ w with pageIndex := i } : MainWindow).connections =
        initConnections := hc
    simp only [setCurrentIndexE, h, if_false, if_neg h]
    unfold emitCurrentChanged
    rw [hc2]
    rfl

/-- Switching the stack index preserves the summary and the slider values
once the window is wired. -/
theorem setCE_summary_vals (w : MainWindow) (i : Int)
    (hc : w.connections = initConnections) :
    (setCurrentIndexE w i).altmans_summary = w.altmans_summary ∧
      sliderVals (setCurrentIndexE w i) = sliderVals w := by
  rw [setCE_initConn w i hc]
  split
  · exact ⟨rfl, rfl⟩
  · exact ⟨rfl, rfl⟩

/-- A clamped `setValue` keeps a well-ranged slider well-ranged. -/
theorem goodSlider_setValue (s : Slider) (hs : GoodSlider s) (v : Int) :
    GoodSlider (s.setValue v) := by
  obtain ⟨h1, h2, _, _⟩ := hs
  refine ⟨h1, h2, ?_, ?_⟩
  · show 0 ≤ max s.lo (min s.hi v)
    rw [h1]
    exact le_max_left 0 _
  · show max s.lo (min s.hi v) ≤ 4
    rw [h1, h2]
    exact max_le (by norm_num) (min_le_left 4 v)

/-- `setRange(0, 4)` always yields a well-ranged slider. -/
theorem goodSlider_setRange (s : Slider) : GoodSlider (s.setRange 0 4) :=
  ⟨rfl, rfl, le_max_left 0 _, max_le (by norm_num) (min_le_left 4 _)⟩

/-- `setRange(0, 4)` keeps an already in-range value unchanged. -/
theorem setRange_val_inRange (s : Slider) (h1 : 0 ≤ s.val) (h2 : s.val ≤ 4) :
    (s.setRange 0 4).val = s.val := by
  show max 0 (min 4 s.val) = s.val
  rw [min_eq_right h2, max_eq_right h1]

/-- The range invariant only depends on the slider tuple. -/
theorem rangeInv_of_sliders {wa wb : MainWindow}
    (h : slidersOf wa = slidersOf wb) (hr : RangeInv wb) : RangeInv wa := by
  have f1 := congrArg (fun p => p.1) h
  have f2 := congrArg (fun p => p.2.1) h
  have f3 := congrArg (fun p => p.2.2.1) h
  have f4 := congrArg (fun p => p.2.2.2.1) h
  have f5 := congrArg (fun p => p.2.2.2.2) h
  simp only [slidersOf] at f1 f2 f3 f4 f5
  unfold RangeInv at hr ⊢
  rw [f1, f2, f3, f4, f5]
  exact hr

/-- The range invariant holds right after construction. -/
theorem rangeInv_init (w0 : MainWindow) (t n : Int) :
    RangeInv (initWindow w0 t n) := by
  have h := (initWindow_char w0 t n).2.1
  have f1 := congrArg (fun p => p.1) h
  have f2 := congrArg (fun p => p.2.1) h
  have f3 := congrArg (fun p => p.2.2.1) h
  have f4 := congrArg (fun p => p.2.2.2.1) h
  have f5 := congrArg (fun p => p.2.2.2.2) h
  simp only [slidersOf] at f1 f2 f3 f4 f5
  unfold RangeInv
  rw [f1, f2, f3, f4, f5]
  exact ⟨goodSlider_setRange _, goodSlider_setRange _, goodSlider_setRange _,
    goodSlider_setRange _, goodSlider_setRange _⟩

/-- Every event preserves the range invariant. -/
theorem rangeInv_step (w : MainWindow) (e : Event) (hr : RangeInv w) :
    RangeInv (step w e) := by
  obtain ⟨g1, g2, g3, g4, g5⟩ := hr
  cases e with
  | sleepMoved v =>
      simp only [step]
      split
      · exact ⟨goodSlider_setValue _ g1 v, g2, g3, g4, g5⟩
      · exact rangeInv_of_sliders (runSignal_sliders _ _)
          ⟨goodSlider_setValue _ g1 v, g2, g3, g4, g5⟩
  | speechMoved v =>
      simp only [step]
      split
      · exact ⟨g1, goodSlider_setValue _ g2 v, g3, g4, g5⟩
      · exact rangeInv_of_sliders (runSignal_sliders _ _)
          ⟨g1, goodSlider_setValue _ g2 v, g3, g4, g5⟩
  | activityMoved v =>
      simp only [step]
      split
      · exact ⟨g1, g2, goodSlider_setValue _ g3 v, g4, g5⟩
      · exact rangeInv_of_sliders (runSignal_sliders _ _)
          ⟨g1, g2, goodSlider_setValue _ g3 v, g4, g5⟩
  | cheerMoved v =>
      simp only [step]
      split
      · exact ⟨g1, g2, g3, goodSlider_setValue _ g4 v, g5⟩
      · exact rangeInv_of_sliders (runSignal_sliders _ _)
          ⟨g1, g2, g3, goodSlider_setValue _ g4 v, g5⟩
  | confidenceMoved v =>
      simp only [step]
      split
      · exact ⟨g1, g2, g3, g4, goodSlider_setValue _ g5 v⟩
      · exact rangeInv_of_sliders (runSignal_sliders _ _)
          ⟨g1, g2, g3, g4, goodSlider_setValue _ g5 v⟩
  | commitClicked =>
      exact rangeInv_of_sliders (runSignal_sliders _ _) ⟨g1, g2, g3, g4, g5⟩
  | deleteClicked =>
      exact rangeInv_of_sliders (runSignal_sliders _ _) ⟨g1, g2, g3, g4, g5⟩
  | examClicked =>
      exact rangeInv_of_sliders (runSignal_sliders _ _) ⟨g1, g2, g3, g4, g5⟩
  | tableClicked =>
      exact rangeInv_of_sliders (runSignal_sliders _ _) ⟨g1, g2, g3, g4, g5⟩

/-- Event sequences preserve the range invariant. -/
theorem rangeInv_applyEvents (w : MainWindow) (evs : List Event)
    (hr : RangeInv w) : RangeInv (applyEvents w evs) := by
  induction evs generalizing w with
  | nil => exact hr
  | cons e t ih => exact ih (step w e) (rangeInv_step w e hr)

/-- The recomputation establishes the summary invariant. -/
theorem summaryInv_update (w : MainWindow) :
    SummaryInv (update_altmans_summary w) := by
  have h1 : sliderVals (update_altmans_summary w) = sliderVals w := rfl
  show (update_altmans_summary w).altmans_summary = _
  rw [update_summary_eq, h1]

/-- The summary invariant transfers along equal summaries and values. -/
theorem summaryInv_of_same {wa wb : MainWindow} (h : SummaryInv wb)
    (hs : wa.altmans_summary = wb.altmans_summary)
    (hv : sliderVals wa = sliderVals wb) : SummaryInv wa := by
  unfold SummaryInv at h ⊢
  rw [hs, hv]
  exact h

/-- Every event preserves the summary invariant on a wired window. -/
theorem summaryInv_step (w : MainWindow) (e : Event)
    (hc : w.connections = initConnections) (hs : SummaryInv w) :
    SummaryInv (step w e) := by
  cases e with
  | sleepMoved v =>
      simp only [step]
      split
      case isTrue h =>
          refine summaryInv_of_same hs rfl ?_
          simp [sliderVals, sliderList, h]
      case isFalse h =>
          have hc2 : ({ w with altmans_sleep := w.altmans_sleep.setValue v } :
              MainWindow).connections = initConnections := hc
          rw [runSignal_sleep _ hc2]
          exact summaryInv_update _
  | speechMoved v =>
      simp only [step]
      split
      case isTrue h =>
          refine summaryInv_of_same hs rfl ?_
          simp [sliderVals, sliderList, h]
      case isFalse h =>
          have hc2 : ({ w with altmans_speech := w.altmans_speech.setValue v } :
              MainWindow).connections = initConnections := hc
          rw [runSignal_speech _ hc2]
          exact summaryInv_update _
  | activityMoved v =>
      simp only [step]
      split
      case isTrue h =>
          refine summaryInv_of_same hs rfl ?_
          simp [sliderVals, sliderList, h]
      case isFalse h =>
          have hc2 : ({ w with altmans_activity := w.altmans_activity.setValue v } :
              MainWindow).connections = initConnections := hc
          rw [runSignal_activity _ hc2]
          exact summaryInv_update _
  | cheerMoved v =>
      simp only [step]
      split
      case isTrue h =>
          refine summaryInv_of_same hs rfl ?_
          simp [sliderVals, sliderList, h]
      case isFalse h =>
          have hc2 : ({ w with altmans_cheer := w.altmans_cheer.setValue v } :
              MainWindow).connections = initConnections := hc
          rw [runSignal_cheer _ hc2]
          exact summaryInv_update _
  | confidenceMoved v =>
      simp only [step]
      split
      case isTrue h =>
          refine summaryInv_of_same hs rfl ?_
          simp [sliderVals, sliderList, h]
      case isFalse h =>
          have hc2 : ({ w with altmans_confidence := w.altmans_confidence.setValue v } :
              MainWindow).connections = initConnections := hc
          rw [runSignal_confidence _ hc2]
          exact summaryInv_update _
  | commitClicked =>
      show SummaryInv (runSignal w Signal.commitTriggered)
      rw [runSignal_commit _ hc]
      exact summaryInv_of_same hs rfl rfl
  | deleteClicked =>
      show SummaryInv (runSignal w Signal.deleteTriggered)
      rw [runSignal_delete _ hc]
      exact summaryInv_of_same hs rfl rfl
  | examClicked =>
      show SummaryInv (runSignal w Signal.examTriggered)
      rw [runSignal_exam _ hc]
      have hcu : (change_stack_page w 0).connections = initConnections := by
        show (setCurrentIndexE w 0).connections = initConnections
        rw [setCurrentIndexE_connections]
        exact hc
      obtain ⟨p1, p2⟩ := setCE_summary_vals w 0 hc
      obtain ⟨q1, q2⟩ := setCE_summary_vals (change_stack_page w 0) 0 hcu
      refine summaryInv_of_same hs ?_ ?_
      · show (setCurrentIndexE (change_stack_page w 0) 0).altmans_summary =
          w.altmans_summary
        rw [q1]
        exact p1
      · show sliderVals (setCurrentIndexE (change_stack_page w 0) 0) =
          sliderVals w
        rw [q2]
        exact p2
  | tableClicked =>
      show SummaryInv (runSignal w Signal.tableTriggered)
      rw [runSignal_table _ hc]
      have hcu : (change_stack_page w 1).connections = initConnections := by
        show (setCurrentIndexE w 1).connections = initConnections
        rw [setCurrentIndexE_connections]
        exact hc
      obtain ⟨p1, p2⟩ := setCE_summary_vals w 1 hc
      obtain ⟨q1, q2⟩ := setCE_summary_vals (change_stack_page w 1) 1 hcu
      refine summaryInv_of_same hs ?_ ?_
      · show (setCurrentIndexE (change_stack_page w 1) 1).altmans_summary =
          w.altmans_summary
        rw [q1]
        exact p1
      · show sliderVals (setCurrentIndexE (change_stack_page w 1) 1) =
          sliderVals w
        rw [q2]
        exact p2

/-- Event sequences preserve the summary invariant on a wired window. -/
theorem summaryInv_applyEvents (w : MainWindow) (evs : List Event)
    (hc : w.connections = initConnections) (hs : SummaryInv w) :
    SummaryInv (applyEvents w evs) := by
  induction evs generalizing w with
  | nil => exact hs
  | cons e t ih =>
      refine ih (step w e) ?_ (summaryInv_step w e hc hs)
      rw [step_connections]
      exact hc

/-- If the construction-time slider values are in range, the summary
invariant holds right after construction. -/
theorem summaryInv_init (w0 : MainWindow) (t n : Int)
    (h : InitValsInRange w0) : SummaryInv (initWindow w0 t n) := by
  obtain ⟨⟨h1a, h1b⟩, ⟨h2a, h2b⟩, ⟨h3a, h3b⟩, ⟨h4a, h4b⟩, ⟨h5a, h5b⟩⟩ := h
  obtain ⟨_, hsl, hsum, _, _⟩ := initWindow_char w0 t n
  have f1 := congrArg (fun p => p.1) hsl
  have f2 := congrArg (fun p => p.2.1) hsl
  have f3 := congrArg (fun p => p.2.2.1) hsl
  have f4 := congrArg (fun p => p.2.2.2.1) hsl
  have f5 := congrArg (fun p => p.2.2.2.2) hsl
  simp only [slidersOf] at f1 f2 f3 f4 f5
  have hv : sliderVals (initWindow w0 t n) = sliderVals w0 := by
    show [(initWindow w0 t n).altmans_sleep.val,
          (initWindow w0 t n).altmans_speech.val,
          (initWindow w0 t n).altmans_activity.val,
          (initWindow w0 t n).altmans_cheer.val,
          (initWindow w0 t n).altmans_confidence.val] = sliderVals w0
    rw [f1, f2, f3, f4, f5,
      setRange_val_inRange _ h1a h1b, setRange_val_inRange _ h2a h2b,
      setRange_val_inRange _ h3a h3b, setRange_val_inRange _ h4a h4b,
      setRange_val_inRange _ h5a h5b]
    rfl
  show (initWindow w0 t n).altmans_summary = _
  rw [hsum, hv]

/-- C2: with the five `valueChanged` signals wired to the recomputation by
construction, after any event history and then a single change to any one of
the five sliders the summary field equals the zero-filtered sum of the
sliders' current values - immediately, with no stale value. -/
theorem C2_summary_follows_any_slider_change (w0 : MainWindow) (t n : Int)
    (evs : List Event) (v : Int) (h : InitValsInRange w0) :
    SummaryInv (applyEvents (initWindow w0 t n) (evs ++ [Event.sleepMoved v])) ∧
      SummaryInv (applyEvents (initWindow w0 t n) (evs ++ [Event.speechMoved v])) ∧
      SummaryInv (applyEvents (initWindow w0 t n) (evs ++ [Event.activityMoved v])) ∧
      SummaryInv (applyEvents (initWindow w0 t n) (evs ++ [Event.cheerMoved v])) ∧
      SummaryInv (applyEvents (initWindow w0 t n) (evs ++ [Event.confidenceMoved v])) := by
  have hc := (initWindow_char w0 t n).1
  have hs := summaryInv_init w0 t n h
  have key : ∀ e : Event,
      SummaryInv (applyEvents (initWindow w0 t n) (evs ++ [e])) := by
    intro e
    have h1 : applyEvents (initWindow w0 t n) (evs ++ [e]) =
        step (applyEvents (initWindow w0 t n) evs) e := by
      unfold applyEvents
      rw [List.foldl_append]
      rfl
    rw [h1]
    refine summaryInv_step _ e ?_ ?_
    · rw [applyEvents_connections]
      exact hc
    · exact summaryInv_applyEvents _ evs hc hs
  exact ⟨key _, key _, key _, key _, key _⟩

/-- Witness for C2: a concrete window, a concrete history, a concrete final
slider move. -/
theorem C2_summary_follows_any_slider_change_witness :
    SummaryInv (applyEvents (initWindow (mkTestWindow 1 2 3 0 4) 0 0)
        ([Event.cheerMoved 2] ++ [Event.sleepMoved 3])) ∧
      SummaryInv (applyEvents (initWindow (mkTestWindow 1 2 3 0 4) 0 0)
        ([Event.cheerMoved 2] ++ [Event.speechMoved 3])) ∧
      SummaryInv (applyEvents (initWindow (mkTestWindow 1 2 3 0 4) 0 0)
        ([Event.cheerMoved 2] ++ [Event.activityMoved 3])) ∧
      SummaryInv (applyEvents (initWindow (mkTestWindow 1 2 3 0 4) 0 0)
        ([Event.cheerMoved 2] ++ [Event.cheerMoved 3])) ∧
      SummaryInv (applyEvents (initWindow (mkTestWindow 1 2 3 0 4) 0 0)
        ([Event.cheerMoved 2] ++ [Event.confidenceMoved 3])) :=
  C2_summary_follows_any_slider_change (mkTestWindow 1 2 3 0 4) 0 0
    [Event.cheerMoved 2] 3 (by decide)

/-- C8: after construction every slider's range is [0,4] and, after any
sequence of window operations, every slider value lies in [0,4]. -/
theorem C8_sliders_always_in_range (w0 : MainWindow) (t n : Int)
    (evs : List Event) : RangeInv (applyEvents (initWindow w0 t n) evs) :=
  rangeInv_applyEvents _ evs (rangeInv_init w0 t n)

/-- C5 counterexample: the field-name mapping does not map every key to an
identically named storage column - the `model` key is mapped to
`altmans_model`. -/
theorem C5_counterexample :
    (¬ ∀ p ∈ altmanFieldMapping, p.2 = p.1) ∧
      ("model", "altmans_model") ∈ altmanFieldMapping := by
  constructor
  · intro h
    have := h ("model", "altmans_model") (by decide)
    simp at this
  · decide

/-- C5 (amended): triggering commit, in any state reachable after
construction, appends exactly one insert call carrying the fixed field-name
mapping and the widget values read at that very state; in the mapping every
data key (date, time, the five sliders, the summary) is mapped to its
identically named column, and the `model` key is mapped to
`altmans_model`. -/
theorem C5_commit_uses_current_values (w0 : MainWindow) (t n : Int)
    (evs : List Event) :
    (step (applyEvents (initWindow w0 t n) evs) Event.commitClicked).dbInserts =
        (applyEvents (initWindow w0 t n) evs).dbInserts ++
          [{ mapping := altmanFieldMapping,
             row := snapshotRow (applyEvents (initWindow w0 t n) evs) }] ∧
      (altmanFieldMapping.all fun p => p.1 == "model" || p.2 == p.1) = true ∧
      ("model", "altmans_model") ∈ altmanFieldMapping := by
  have hc : (applyEvents (initWindow w0 t n) evs).connections =
      initConnections := by
    rw [applyEvents_connections]
    exact (initWindow_char w0 t n).1
  refine ⟨?_, by decide, by decide⟩
  show (runSignal (applyEvents (initWindow w0 t n) evs)
      Signal.commitTriggered).dbInserts = _
  rw [runSignal_commit _ hc]
  rfl

/-- C6: starting from a settings store with no saved entries, construction
leaves page index 0 and restores the empty default geometry and window
state (every settings read supplies a default, so nothing raises). -/
theorem C6_restore_with_empty_settings (w0 : MainWindow) (t n : Int)
    (h : w0.settings.entries = []) :
    (initWindow w0 t n).pageIndex = 0 ∧
      (initWindow w0 t n).geometry = [] ∧
      (initWindow w0 t n).windowStateBlob = [] := by
  obtain ⟨_, _, _, hp, entries2, hent, hw1, hw2⟩ := initWindow_char w0 t n
  refine ⟨?_, ?_, ?_⟩
  · rw [hp]
    simp [QSettings.value, h, QVariant.asInt]
  · rw [hw1]
    rcases hent with he | he <;>
      rw [he] <;>
      simp [QSettings.value, h, QVariant.asBlob, List.find?]
  · rw [hw2]
    rcases hent with he | he <;>
      rw [he] <;>
      simp [QSettings.value, h, QVariant.asBlob, List.find?]

/-- Witness for C6 at a concrete window with an empty settings store. -/
theorem C6_restore_with_empty_settings_witness :
    (initWindow (mkTestWindow 0 2 0 3 4) 5 6).pageIndex = 0 ∧
      (initWindow (mkTestWindow 0 2 0 3 4) 5 6).geometry = [] ∧
      (initWindow (mkTestWindow 0 2 0 3 4) 5 6).windowStateBlob = [] :=
  C6_restore_with_empty_settings (mkTestWindow 0 2 0 3 4) 5 6 rfl

/-- C3 counterexample: a close event writes `geometry` and `windowState` and
nothing else - in particular it performs zero writes of the page index,
where the claim demands exactly one. -/
theorem C3_counterexample :
    (closeEvent (mkTestWindow 0 2 0 3 4) false false).settings.writeLog =
        ["geometry", "windowState"] ∧
      ((closeEvent (mkTestWindow 0 2 0 3 4) false
          false).settings.writeLog).count "lastPageIndex" = 0 := by
  constructor
  · rfl
  · rfl

/-- C3 (amended): every close event attempts exactly one write of the
geometry and exactly one write of the window state - regardless of whether
either write fails, and hence regardless of whether any earlier restore
succeeded - and performs no write of the page index (which is persisted on
each page change instead). -/
theorem C3_close_persists_once (w : MainWindow) (gf wf : Bool) :
    (closeEvent w gf wf).settings.writeLog =
        w.settings.writeLog ++ ["geometry", "windowState"] ∧
      ((closeEvent w gf wf).settings.writeLog).count "lastPageIndex" =
        (w.settings.writeLog).count "lastPageIndex" := by
  constructor
  · show (w.settings.writeLog ++ ["geometry"]) ++ ["windowState"] = _
    rw [List.append_assoc]
    rfl
  · show ((w.settings.writeLog ++ ["geometry"]) ++ ["windowState"]).count
        "lastPageIndex" = _
    rw [List.count_append, List.count_append]
    rfl

/-- C10: in `save_state` both writes are always attempted, once each, and
each write's failure is caught by its own handler: a failing geometry write
does not prevent the window-state write from landing, and vice versa. -/
theorem C10_save_state_independent_guards (w : MainWindow) (gf wf : Bool) :
    (save_state w gf wf).settings.writeLog =
        w.settings.writeLog ++ ["geometry", "windowState"] ∧
      (save_state w true false).settings.entries =
        ("windowState", QVariant.blobVal w.windowStateBlob) ::
          w.settings.entries ∧
      (save_state w false true).settings.entries =
        ("geometry", QVariant.blobVal w.geometry) :: w.settings.entries := by
  refine ⟨?_, ?_, ?_⟩
  · show (w.settings.writeLog ++ ["geometry"]) ++ ["windowState"] = _
    rw [List.append_assoc]
    rfl
  · rfl
  · rfl

/-- C4 counterexample: a failing connection inside `delete_group` propagates
to the caller - the method has no try/except boundary. -/
theorem C4_counterexample :
    delete_group_exc true = Except.error "connect actionDelete" := rfl

/-- C4 (amended): `app_operations`, `on_page_changed`, `stack_navigation`,
`update_altmans_summary`, `save_state`, `restore_state`, `closeEvent` and
the commit-connection part of `altman_table_commit` catch, log and swallow
any failure at their own boundary; but `delete_group`, `setup_models`,
`switch_page_view_setup` and the slider-setup tail of `altman_table_commit`
have no such boundary and let exceptions propagate. -/
theorem C4_wiring_boundaries (a1 a2 a3 b c d i1 i2 j1 j2 k1 k2 : Bool)
    (e f g1 g2 h1 h2 : Bool) :
    app_operations_exc a1 a2 a3 = Except.ok () ∧
      on_page_changed_exc b = Except.ok () ∧
      stack_navigation_exc c = Except.ok () ∧
      update_altmans_summary_exc d = Except.ok () ∧
      save_state_exc i1 i2 = Except.ok () ∧
      restore_state_exc j1 j2 = Except.ok () ∧
      closeEvent_exc k1 k2 = Except.ok () ∧
      (delete_group_exc e = Except.ok () ↔ e = false) ∧
      (setup_models_exc f = Except.ok () ↔ f = false) ∧
      (switch_page_view_setup_exc g1 g2 = Except.ok () ↔
        (g1 = false ∧ g2 = false)) ∧
      (altman_table_commit_exc h1 h2 = Except.ok () ↔ h2 = false) := by
  refine ⟨?_, ?_, ?_, ?_, ?_, ?_, ?_, ?_, ?_, ?_, ?_⟩
  · cases a1 <;> cases a2 <;> cases a3 <;> rfl
  · cases b <;> rfl
  · cases c <;> rfl
  · cases d <;> rfl
  · cases i1 <;> cases i2 <;> rfl
  · cases j1 <;> cases j2 <;> rfl
  · cases k1 <;> cases k2 <;> rfl
  · cases e <;> simp [delete_group_exc, opResult]
  · cases f <;> simp [setup_models_exc, opResult]
  · cases g1 <;> cases g2 <;>
      simp [switch_page_view_setup_exc, opResult, Bind.bind, Except.bind]
  · cases h1 <;> cases h2 <;>
      simp [altman_table_commit_exc, opResult, tryLog, Bind.bind, Except.bind]
